import Mathlib

/-
  Verification development for the haero aerosol library.

  Shallow embedding of the process-dispatch / time-integration core:
  * `haero.chem_driver` — the batched stiff-ODE driver (`chem_driver.cpp`):
    solver-parameter loading, tchem-input parsing, and both
    `ChemSolver::time_integrate` entry points.
  * `haero` — the `Model` orchestrator (`model.cpp`), the process registry
    (`selected_processes.cpp`), the `Atmosphere` container (`atmosphere.hpp`)
    and the testing column pool (`testing.cpp`).

  C++ `Real` (a floating-point scalar) is modelled as `ℚ`; the properties at
  stake are order comparisons, control flow and data plumbing, none of which
  depend on rounding. Device/host mirror views are collapsed to one value,
  since the code fences after each kernel launch before reading mirrors.
  Machine pointers are modelled as allocation identifiers (`Nat`).
-/

namespace haero

/-- The scalar type used throughout (`haero::Real`), modelled as `ℚ`. -/
abbrev Real : Type := ℚ

namespace chem_driver

namespace defaults

/-- Default begin time (`defaults::tbeg`). -/
def tbeg : Real := 0

/-- Default end time (`defaults::tend`). -/
def tend : Real := 1

/-- Default initial step (`defaults::dt = 1.0e-8`). -/
def dt : Real := 1 / 100000000

/-- Default minimum step (`defaults::dtmin = 1.0e-8`). -/
def dtmin : Real := 1 / 100000000

/-- Default maximum step (`defaults::dtmax = 1.0e-1`). -/
def dtmax : Real := 1 / 10

/-- Default Newton iteration cap (`defaults::max_num_newton_iterations`). -/
def max_num_newton_iterations : Int := 100

/-- Default iterations per interval (`defaults::num_time_iterations_per_interval`). -/
def num_time_iterations_per_interval : Int := 10

/-- Default Jacobian refresh interval (`defaults::jacobian_interval`). -/
def jacobian_interval : Int := 1

/-- Default outer iteration cap (`defaults::max_time_iterations = 1.0e3`,
a `constexpr Real` that is assigned to the `int` member, hence 1000). -/
def max_time_iterations : Int := 1000

/-- Default absolute Newton tolerance (`defaults::atol_newton = 1.0e-10`). -/
def atol_newton : Real := 1 / 10000000000

/-- Default relative Newton tolerance (`defaults::rtol_newton = 1.0e-6`). -/
def rtol_newton : Real := 1 / 1000000

/-- Default absolute time tolerance (`defaults::atol_time = 1.0e-12`). -/
def atol_time : Real := 1 / 1000000000000

/-- Default time tolerance (`defaults::tol_time = 1.0e-4`). -/
def tol_time : Real := 1 / 10000

/-- Default batch count (`defaults::nbatch`). -/
def nbatch : Int := 1

/-- Default verbosity (`defaults::verbose`). -/
def verbose : Bool := false

/-- Default team size (`defaults::team_size`). -/
def team_size : Int := -1

/-- Default vector size (`defaults::vector_size`). -/
def vector_size : Int := -1

/-- Default output file name (`defaults::outputfile`). -/
def outputfile : String := "chem.dat"

end defaults

/-- TChem's `time_advance_type` record, as populated by `SolverParams::set_params`. -/
structure TimeAdvance where
  _tbeg : Real
  _tend : Real
  _dt : Real
  _dtmin : Real
  _dtmax : Real
  _max_num_newton_iterations : Int
  _num_time_iterations_per_interval : Int
  _jacobian_interval : Int
deriving DecidableEq

/-- The `SolverParams` record of `chem_driver.hpp`/`chem_driver.cpp`:
time-stepping and Newton-iteration control values. -/
structure SolverParams where
  tadv_default : TimeAdvance
  max_time_iterations : Int
  atol_newton : Real
  rtol_newton : Real
  atol_time : Real
  tol_time : Real
  outputfile : String
deriving DecidableEq

/-- The `solver_parameters` YAML section: each key either present (`some`) or
absent (`none`), mirroring `node[key]` lookups in `SolverParams::set_params`. -/
structure SolverParamsNode where
  dtmin : Option Real
  dtmax : Option Real
  tbeg : Option Real
  tend : Option Real
  num_time_iterations_per_interval : Option Int
  max_time_iterations : Option Int
  max_newton_iterations : Option Int
  atol_newton : Option Real
  rtol_newton : Option Real
  atol_time : Option Real
  tol_time : Option Real
  jacobian_interval : Option Int
  outputfile : Option String
deriving DecidableEq

/-- The `required_nodes` list of `SolverParams::set_params`, in source order. -/
def required_nodes : List String :=
  ["dtmin", "dtmax", "tbeg", "tend", "num_time_iterations_per_interval",
   "max_time_iterations", "max_newton_iterations", "atol_newton", "rtol_newton",
   "atol_time", "tol_time", "jacobian_interval", "outputfile"]

/-- Whether `node[k]` resolves, for the keys `set_params` queries. -/
def SolverParamsNode.hasKey (n : SolverParamsNode) (k : String) : Bool :=
  if k == "dtmin" then n.dtmin.isSome
  else if k == "dtmax" then n.dtmax.isSome
  else if k == "tbeg" then n.tbeg.isSome
  else if k == "tend" then n.tend.isSome
  else if k == "num_time_iterations_per_interval" then
    n.num_time_iterations_per_interval.isSome
  else if k == "max_time_iterations" then n.max_time_iterations.isSome
  else if k == "max_newton_iterations" then n.max_newton_iterations.isSome
  else if k == "atol_newton" then n.atol_newton.isSome
  else if k == "rtol_newton" then n.rtol_newton.isSome
  else if k == "atol_time" then n.atol_time.isSome
  else if k == "tol_time" then n.tol_time.isSome
  else if k == "jacobian_interval" then n.jacobian_interval.isSome
  else if k == "outputfile" then n.outputfile.isSome
  else true

/-- The `SolverParams` values produced by the defaults branch of `set_params`. -/
def default_solver_params : SolverParams :=
  { tadv_default :=
      { _tbeg := defaults.tbeg
        _tend := defaults.tend
        _dt := defaults.dt
        _dtmin := defaults.dtmin
        _dtmax := defaults.dtmax
        _max_num_newton_iterations := defaults.max_num_newton_iterations
        _num_time_iterations_per_interval := defaults.num_time_iterations_per_interval
        _jacobian_interval := defaults.jacobian_interval }
    max_time_iterations := defaults.max_time_iterations
    atol_newton := defaults.atol_newton
    rtol_newton := defaults.rtol_newton
    atol_time := defaults.atol_time
    tol_time := defaults.tol_time
    outputfile := defaults.outputfile }

/-- `SolverParams::set_params` (`chem_driver.cpp` lines 447-516): with the
section present it walks `required_nodes` in order and throws a
`YamlException` naming the first missing key; with the section absent (or not
a map) it installs the `defaults` values. The input models
`root["solver_parameters"]`, `none` meaning absent-or-not-a-map. -/
def set_params : Option SolverParamsNode → Except String SolverParams
  | some node =>
    match required_nodes.find? (fun k => ! node.hasKey k) with
    | some k => Except.error ("solver_parameters contains no " ++ k ++ " entry.")
    | none =>
      Except.ok
        { tadv_default :=
            { _tbeg := node.tbeg.getD 0
              _tend := node.tend.getD 0
              _dt := node.dtmin.getD 0
              _dtmin := node.dtmin.getD 0
              _dtmax := node.dtmax.getD 0
              _max_num_newton_iterations := node.max_newton_iterations.getD 0
              _num_time_iterations_per_interval :=
                node.num_time_iterations_per_interval.getD 0
              _jacobian_interval := node.jacobian_interval.getD 0 }
          max_time_iterations := node.max_time_iterations.getD 0
          atol_newton := node.atol_newton.getD 0
          rtol_newton := node.rtol_newton.getD 0
          atol_time := node.atol_time.getD 0
          tol_time := node.tol_time.getD 0
          outputfile := node.outputfile.getD "" }
  | none => Except.ok default_solver_params

/-- The `tchem` YAML section queried by `ChemSolver::parse_tchem_inputs_`. -/
structure TchemNode where
  nbatch : Option Int
  verbose : Option Bool
  team_size : Option Int
  vector_size : Option Int
  print_qoi : Option Bool
deriving DecidableEq

/-- The `ChemSolver` members assigned by `parse_tchem_inputs_`. `none` records
that the corresponding member was never assigned by the function (the members
carry no in-class initializer the parser could rely on). -/
structure TchemSettings where
  nbatch_ : Option Int
  verbose_ : Option Bool
  team_size_ : Option Int
  vector_size_ : Option Int
  print_qoi_ : Option Bool
deriving DecidableEq

/-- `ChemSolver::parse_tchem_inputs_` (`chem_driver.cpp` lines 407-443): with a
`tchem` map present it requires all five keys (throwing on the first missing
one, in source order) and assigns all five members; with the section absent it
assigns defaults to `nbatch_`, `verbose_`, `team_size_`, `vector_size_` — and
does not assign `print_qoi_` at all. -/
def parse_tchem_inputs : Option TchemNode → Except String TchemSettings
  | some node =>
    if node.nbatch.isNone then
      Except.error
        "problem specific entry does not specify number of batches (nbatch)."
    else if node.verbose.isNone then
      Except.error "problem specific entry has no verbose boolean (verbose)."
    else if node.team_size.isNone then
      Except.error "problem specific entry has no team_size entry (team_size)."
    else if node.vector_size.isNone then
      Except.error
        "problem specific entry has no vector_size entry (vector_size)."
    else if node.print_qoi.isNone then
      Except.error "problem specific entry has no print_qoi boolean (verbose)."
    else
      Except.ok
        { nbatch_ := node.nbatch
          verbose_ := node.verbose
          team_size_ := node.team_size
          vector_size_ := node.vector_size
          print_qoi_ := node.print_qoi }
  | none =>
    Except.ok
      { nbatch_ := some defaults.nbatch
        verbose_ := some defaults.verbose
        team_size_ := some defaults.team_size
        vector_size_ := some defaults.vector_size
        print_qoi_ := none }

/-- One batch element's device-resident data during `time_integrate`: its
entries of the `t`, `dt` and `tadv` views and its row of the state matrix. -/
structure BatchEl where
  t : Real
  dt : Real
  tadv_tbeg : Real
  tadv_dt : Real
  state : List Real
deriving DecidableEq

/-- One record emitted by `write_state` (`chem_driver.cpp` lines 60-72): the
iteration index and, per batch element, time, step size and the state row
(density, pressure, temperature, species concentrations). -/
structure StateLine where
  iter : Int
  t : Real
  dt : Real
  state : List Real
deriving DecidableEq

/-- A line of the output file: the header line or a `write_state` record. -/
inductive OutLine where
  | header : OutLine
  | state : StateLine → OutLine
deriving DecidableEq

/-- `write_state(iter, t_host, dt_host, state_host, fout)`: one line per batch
element, each carrying the iteration index and that element's time, step size
and state row. -/
def write_state (iter : Int) (els : List BatchEl) : List StateLine :=
  els.map (fun e => { iter := iter, t := e.t, dt := e.dt, state := e.state })

/-- The per-element carry-over of `chem_driver.cpp` lines 256-264: the
`parallel_reduce` body writes `tadv(i)._tbeg = t(i)` and `tadv(i)._dt = dt(i)`
for each batch index `i` (its reduction contribution feeds only the local
`tsum`, see `time_loop`). -/
def carry_over (e : BatchEl) : BatchEl :=
  { e with tadv_tbeg := e.t, tadv_dt := e.dt }

/-- One iteration's batched update: `TChem::AtmosphericChemistry::runDeviceBatch`
(the external kinetics kernel, abstracted as a per-element function `kernel`
per spec §6: it consumes each element's time-advance descriptor and state row
and produces that element's updated state/time/step-size) followed by the
carry-over writes. -/
def batch_step (kernel : BatchEl → BatchEl) (els : List BatchEl) : List BatchEl :=
  (els.map kernel).map carry_over

/-- The average of the per-element times, as accumulated by the
`parallel_reduce` into the loop body's local `tsum` and divided by `nbatch`. -/
def inner_tsum (els : List BatchEl) : Real :=
  (els.map BatchEl.t).sum / els.length

/-- The outer stepping loop of `ChemSolver::time_integrate` (`chem_driver.cpp`
lines 230-267): `for (; iter < max_time_iterations && tsum <= tend * 0.9999; ++iter)`.
`fuel` is the remaining iteration budget (`max_time_iterations - iter`) and
`tsum` is the loop-condition variable declared before the loop. The body's
`Real tsum = 0;` declares a NEW local that shadows it, so the condition's
`tsum` is passed through unchanged (the body's average lands in the shadowed
local, modelled by the discarded `_tsum_inner`). Returns (number of iterations
executed, final batch, file lines written by the loop). -/
def time_loop (kernel : BatchEl → BatchEl) (tend : Real) (tsum : Real) :
    Nat → Nat → List BatchEl → Nat × List BatchEl × List StateLine
  | 0, _, els => (0, els, [])
  | fuel + 1, iter, els =>
    if tsum ≤ tend * (9999 / 10000) then
      let stepped := els.map kernel
      let lines := write_state (Int.ofNat iter) stepped
      let els' := stepped.map carry_over
      let _tsum_inner := inner_tsum stepped
      let rest := time_loop kernel tend tsum fuel (iter + 1) els'
      (rest.1 + 1, rest.2.1, lines ++ rest.2.2)
    else
      (0, els, [])

/-- `ChemSolver::time_integrate(tbeg, tend)` (`chem_driver.cpp` lines 149-280):
initializes each batch element's time to `tbeg` and step size to
`tadv_default._dtmin`, writes the header line and the initial condition with
sentinel iteration index `-1`, then runs the outer stepping loop (whose
condition variable `tsum` starts at 0). Returns (iterations executed, final
batch, output-file lines). `init_state` holds each batch element's initial
state row (`state_host_`). -/
def time_integrate (kernel : BatchEl → BatchEl) (sp : SolverParams)
    (tbeg tend : Real) (init_state : List (List Real)) :
    Nat × List BatchEl × List OutLine :=
  let els0 : List BatchEl := init_state.map (fun st =>
    { t := tbeg, dt := sp.tadv_default._dtmin,
      tadv_tbeg := tbeg, tadv_dt := sp.tadv_default._dt, state := st })
  let r := time_loop kernel tend 0 sp.max_time_iterations.toNat 0 els0
  (r.1, r.2.1,
   OutLine.header ::
     ((write_state (-1) els0).map OutLine.state ++ r.2.2.map OutLine.state))

end chem_driver

/-- An aerosol particle mode's static metadata (`mode.hpp`). -/
structure Mode where
  name : String
  min_diameter : Real
  max_diameter : Real
  geom_std_dev : Real

/-- An aerosol species' metadata. Modelled from the spec: the `Species` class
(`species.hpp`) is not under `src/`; spec §3 gives it a name, molecular weight
and density/hygroscopicity constants, of which only the name takes part in the
Model's mode/species indexing, so only the name is carried here. -/
structure Species where
  name : String
deriving DecidableEq

/-- The mode/species-index association built by the `Model` constructor
(`model.cpp` lines 24-40). For each association-table entry
(`mode_name`, species-name list) — `std::map` iteration, i.e. entries in
ascending key order — it finds the index of the mode named `mode_name`
(`findIdx` returns the list length when absent, like the iterator arithmetic),
then for each listed species name pushes onto that mode's index list the index
of the first species whose name equals `mode_name` (sic: the lambda on line 36
compares against the mode's name, and ignores the loop variable `s`). An
out-of-range `mode_index` write is undefined behavior in C++; `List.set` drops
it. -/
def build_species_for_mode (aerosol_modes : List Mode)
    (aerosol_species : List Species)
    (mode_species : List (String × List String)) : List (List Nat) :=
  mode_species.foldl
    (fun sfm entry =>
      let mode_name := entry.1
      let m_species := entry.2
      let mode_index := aerosol_modes.findIdx (fun m => m.name == mode_name)
      let new_indices := m_species.map (fun _s =>
        aerosol_species.findIdx (fun sp => sp.name == mode_name))
      sfm.set mode_index ((sfm.getD mode_index []) ++ new_indices))
    (List.replicate aerosol_modes.length [])

/-- The `Model` state the claims touch: mode list, aerosol/gas species lists
and the mode→species-index association. -/
structure Model where
  modes_ : List Mode
  aero_species_ : List Species
  gas_species_ : List Species
  species_for_mode_ : List (List Nat)

/-- `Model::Model` (`model.cpp` lines 6-65), restricted to the metadata
members: stores the mode/species lists and builds `species_for_mode_`. -/
def Model.construct (aerosol_modes : List Mode) (aerosol_species : List Species)
    (mode_species : List (String × List String))
    (gas_species : List Species) : Model :=
  { modes_ := aerosol_modes
    aero_species_ := aerosol_species
    gas_species_ := gas_species
    species_for_mode_ :=
      build_species_for_mode aerosol_modes aerosol_species mode_species }

/-- `Model::aerosol_species_for_mode` (`model.cpp` lines 154-163): maps the
stored index list of the given mode over `aero_species_`. An out-of-range
species index is undefined behavior in C++; it surfaces here as `none`. -/
def Model.aerosol_species_for_mode (m : Model) (mode_index : Nat) :
    List (Option Species) :=
  (m.species_for_mode_.getD mode_index []).map (fun s => m.aero_species_.get? s)

/-- Modelled from the spec: the intended mode/species round-trip of §8 P4 —
`aerosol_species_for_mode(i)` should return exactly the species named in
`A[M[i].name]`, in table order, each resolved by its own (species) name. -/
def aerosol_species_for_mode_spec (aerosol_modes : List Mode)
    (aerosol_species : List Species)
    (mode_species : List (String × List String)) (i : Nat) :
    Option (List (Option Species)) :=
  (aerosol_modes.get? i).map (fun mode =>
    (((mode_species.find? (fun e => e.1 == mode.name)).map Prod.snd).getD []).map
      (fun sname => aerosol_species.find? (fun sp => sp.name == sname)))

/-- The `AerosolProcessType` enumeration as used by `select_aerosol_process`
(`selected_processes.cpp`). Modelled from the spec: the enum's declaration
(`aero_process.hpp` of this generation / `selected_processes.hpp`) is not
under `src/`; members are those the selector dispatches on (§4.3's enumerated
process list plus the selector's additional cases). -/
inductive AerosolProcessType where
  | ActivationProcess
  | CloudBorneWetRemovalProcess
  | CoagulationProcess
  | CondensationProcess
  | DryDepositionProcess
  | EmissionsProcess
  | InterstitialWetRemovalProcess
  | NucleationProcess
  | CalcsizeProcess
  | RenameSubareaProcess
  | ResuspensionProcess
deriving DecidableEq

namespace SelectedProcesses

/-- Modelled from the spec: the per-process selection enums of
`SelectedProcesses` (`selected_processes.hpp`, not under `src/`); members are
those referenced by `selected_processes.cpp` (each type's "none" selection per
§4.2, plus the MAM/MAMF implementations). -/
inductive Activation where
  | NoActivation
deriving DecidableEq

/-- Selection values for cloud-borne wet removal. -/
inductive CloudBorneWetRemoval where
  | NoCloudBorneWetRemoval
deriving DecidableEq

/-- Selection values for coagulation. -/
inductive Coagulation where
  | NoCoagulation
deriving DecidableEq

/-- Selection values for condensation. -/
inductive Condensation where
  | NoCondensation
deriving DecidableEq

/-- Selection values for dry deposition. -/
inductive DryDeposition where
  | NoDryDeposition
deriving DecidableEq

/-- Selection values for emissions. -/
inductive Emissions where
  | NoEmissions
deriving DecidableEq

/-- Selection values for interstitial wet removal. -/
inductive InterstitialWetRemoval where
  | NoInterstitialWetRemoval
deriving DecidableEq

/-- Selection values for nucleation. -/
inductive Nucleation where
  | MAMNucleation
  | MAMFNucleation
  | NoNucleation
deriving DecidableEq

/-- Selection values for calcsize. -/
inductive Calcsize where
  | MAMCalcsize
  | MAMFCalcsize
  | NoCalcsize
deriving DecidableEq

/-- Selection values for rename-subarea. -/
inductive RenameSubarea where
  | MAMRenameSubarea
  | MAMFRenameSubarea
  | NoRenameSubarea
deriving DecidableEq

/-- Selection values for resuspension. -/
inductive Resuspension where
  | NoResuspension
deriving DecidableEq

end SelectedProcesses

/-- The `SelectedProcesses` record: one selection per process type. -/
structure SelectedProcesses where
  activation : SelectedProcesses.Activation
  cloudborne_wet_removal : SelectedProcesses.CloudBorneWetRemoval
  coagulation : SelectedProcesses.Coagulation
  condensation : SelectedProcesses.Condensation
  dry_deposition : SelectedProcesses.DryDeposition
  emissions : SelectedProcesses.Emissions
  interstitial_wet_removal : SelectedProcesses.InterstitialWetRemoval
  nucleation : SelectedProcesses.Nucleation
  calcsize : SelectedProcesses.Calcsize
  rename_subarea : SelectedProcesses.RenameSubarea
  resuspension : SelectedProcesses.Resuspension
deriving DecidableEq

/-- `SelectedProcesses::SelectedProcesses()` (`selected_processes.cpp` lines
7-18): every selection defaults to its "none" value. -/
def selected_processes_default : SelectedProcesses :=
  { activation := .NoActivation
    cloudborne_wet_removal := .NoCloudBorneWetRemoval
    coagulation := .NoCoagulation
    condensation := .NoCondensation
    dry_deposition := .NoDryDeposition
    emissions := .NoEmissions
    interstitial_wet_removal := .NoInterstitialWetRemoval
    nucleation := .NoNucleation
    calcsize := .NoCalcsize
    rename_subarea := .NoRenameSubarea
    resuspension := .NoResuspension }

/-- The concrete aerosol-process implementations `select_aerosol_process` can
allocate. Modelled from the spec: the classes live in headers not under
`src/`; §4.1 says every concrete process reports a process-type tag. -/
inductive AerosolProcessImpl where
  | NullAerosolProcess : AerosolProcessType → AerosolProcessImpl
  | MAMNucleationProcess
  | MAMNucleationFProcess
  | MAMCalcsizeProcess
  | MAMCalcsizeFProcess
  | MAMRenamSubareaProcess
deriving DecidableEq

/-- The process-type tag each implementation reports (`type()`). The null
process carries the type it was constructed with; the MAM/MAMF
implementations report their own kind (modelled from the spec, §4.1). -/
def AerosolProcessImpl.ptype : AerosolProcessImpl → AerosolProcessType
  | .NullAerosolProcess t => t
  | .MAMNucleationProcess => .NucleationProcess
  | .MAMNucleationFProcess => .NucleationProcess
  | .MAMCalcsizeProcess => .CalcsizeProcess
  | .MAMCalcsizeFProcess => .CalcsizeProcess
  | .MAMRenamSubareaProcess => .RenameSubareaProcess

/-- `select_aerosol_process` (`selected_processes.cpp` lines 20-90): a flat
conditional dispatch that leaves `process` null unless a case assigns it, then
`EKAT_REQUIRE_MSG(process != nullptr, ...)` — a fatal setup-time error modelled
as `Except.error`. `fortran` models the `HAERO_FORTRAN` build flag guarding
the `MAMF` branches; note the `MAMFRenameSubarea` branch body is empty in the
source (lines 78-79), and the `DryDepositionProcess` case tests
`selections.cloudborne_wet_removal` (lines 40-44), both kept as written. -/
def select_aerosol_process (fortran : Bool) (type : AerosolProcessType)
    (selections : SelectedProcesses) : Except String AerosolProcessImpl :=
  let process : Option AerosolProcessImpl :=
    match type with
    | .ActivationProcess =>
      if selections.activation = .NoActivation then
        some (.NullAerosolProcess type)
      else none
    | .CloudBorneWetRemovalProcess =>
      if selections.cloudborne_wet_removal = .NoCloudBorneWetRemoval then
        some (.NullAerosolProcess type)
      else none
    | .CoagulationProcess =>
      if selections.coagulation = .NoCoagulation then
        some (.NullAerosolProcess type)
      else none
    | .CondensationProcess =>
      if selections.condensation = .NoCondensation then
        some (.NullAerosolProcess type)
      else none
    | .DryDepositionProcess =>
      if selections.cloudborne_wet_removal = .NoCloudBorneWetRemoval then
        some (.NullAerosolProcess type)
      else none
    | .EmissionsProcess =>
      if selections.emissions = .NoEmissions then
        some (.NullAerosolProcess type)
      else none
    | .InterstitialWetRemovalProcess =>
      if selections.interstitial_wet_removal = .NoInterstitialWetRemoval then
        some (.NullAerosolProcess type)
      else none
    | .NucleationProcess =>
      if selections.nucleation = .MAMNucleation then
        some .MAMNucleationProcess
      else if fortran ∧ selections.nucleation = .MAMFNucleation then
        some .MAMNucleationFProcess
      else if selections.nucleation = .NoNucleation then
        some (.NullAerosolProcess type)
      else none
    | .CalcsizeProcess =>
      if selections.calcsize = .MAMCalcsize then
        some .MAMCalcsizeProcess
      else if fortran ∧ selections.calcsize = .MAMFCalcsize then
        some .MAMCalcsizeFProcess
      else if selections.calcsize = .NoCalcsize then
        some (.NullAerosolProcess type)
      else none
    | .RenameSubareaProcess =>
      if selections.rename_subarea = .MAMRenameSubarea then
        some .MAMRenamSubareaProcess
      else if fortran ∧ selections.rename_subarea = .MAMFRenameSubarea then
        none
      else if selections.rename_subarea = .NoRenameSubarea then
        some (.NullAerosolProcess type)
      else none
    | .ResuspensionProcess =>
      if selections.resuspension = .NoResuspension then
        some (.NullAerosolProcess type)
      else none
  match process with
  | some p => Except.ok p
  | none => Except.error "No aerosol process was selected!"

/-- The `ProcessType` enumeration of the `Model` orchestrator generation,
as used by `model.cpp`. Modelled from the spec: its declaration is not under
`src/`; members are the enumerated prognostic types plus the diagnostic
water-uptake type (spec §4.3). -/
inductive ProcessType where
  | ActivationProcess
  | CloudBorneWetRemovalProcess
  | CoagulationProcess
  | CondensationProcess
  | DryDepositionProcess
  | EmissionsProcess
  | NucleationProcess
  | ResuspensionProcess
  | WaterUptakeProcess
deriving DecidableEq

/-- A prognostic process as `Model::run_process` sees it: a type tag and a
tendency computation. `run` takes (t, dt, prognostics, diagnostics, incoming
tendencies) and returns the populated tendencies; in the C++ signature
`prognostics`, `diagnostics` and the atmosphere are `const`, so the tendencies
are the only output. -/
structure PrognosticProcess (P D T : Type) where
  ptype : ProcessType
  run : Real → Real → P → D → T → T

/-- `Model::run_process` (`model.cpp` lines 113-126). `prog_processes` models
the `prog_processes_` map: `none` = no entry for the type, `some none` = entry
holding a null pointer. The three `EKAT_REQUIRE_MSG` checks become the error
cases, in source order; on success it delegates to the process and returns the
(unchanged) prognostics together with the computed tendencies. -/
def run_process {P D T : Type}
    (prog_processes : ProcessType → Option (Option (PrognosticProcess P D T)))
    (type : ProcessType) (t dt : Real) (prognostics : P) (diagnostics : D)
    (tendencies : T) : Except String (P × T) :=
  match prog_processes type with
  | none => Except.error "No process of the selected type is available!"
  | some none => Except.error "Null process pointer encountered!"
  | some (some proc) =>
    if proc.ptype = type then
      Except.ok (prognostics, proc.run t dt prognostics diagnostics tendencies)
    else
      Except.error "Invalid process type encountered!"

/-- The `Atmosphere` container (`atmosphere.hpp`): per-level column views plus
the scalar boundary-layer height. Each view is a list of per-level values. -/
structure Atmosphere where
  temperature : List Real
  pressure : List Real
  vapor_mixing_ratio : List Real
  liquid_mixing_ratio : List Real
  cloud_liquid_number_mixing_ratio : List Real
  ice_mixing_ratio : List Real
  cloud_ice_number_mixing_ratio : List Real
  height : List Real
  hydrostatic_dp : List Real
  cloud_fraction : List Real
  updraft_vel_ice_nucleation : List Real
  planetary_boundary_layer_height : Real

/-- `Atmosphere::num_levels()`: the temperature view's extent
(`num_levels_ = T.extent(0)`). -/
def Atmosphere.num_levels (a : Atmosphere) : Nat :=
  a.temperature.length

/-- The per-level violation flag of the `quantities_nonnegative` reduction
body (`atmosphere.hpp` lines 120-127): whether any of temperature, pressure,
vapor/liquid/ice mixing ratio, or cloud liquid/ice number mixing ratio is
negative at level `k`. -/
def Atmosphere.violation_at (a : Atmosphere) (k : Nat) : Bool :=
  decide (a.temperature.getD k 0 < 0) ||
  decide (a.pressure.getD k 0 < 0) ||
  decide (a.vapor_mixing_ratio.getD k 0 < 0) ||
  decide (a.liquid_mixing_ratio.getD k 0 < 0) ||
  decide (a.ice_mixing_ratio.getD k 0 < 0) ||
  decide (a.cloud_liquid_number_mixing_ratio.getD k 0 < 0) ||
  decide (a.cloud_ice_number_mixing_ratio.getD k 0 < 0)

/-- `Atmosphere::quantities_nonnegative` (`atmosphere.hpp` lines 112-131): a
column-wide reduction that sums one violation flag per level and returns
whether the total is zero. It reads the views without mutating them. -/
def Atmosphere.quantities_nonnegative (a : Atmosphere) : Bool :=
  ((List.range a.num_levels).countP a.violation_at) == 0

/-- The testing column pool (`testing.cpp` lines 16-64). Device pointers are
modelled as allocation identifiers drawn from the counter `next_id` (distinct
identifiers = non-aliased allocations); `memory_` holds `some id` for an
allocated slot and `none` for a null slot. -/
structure ColumnPool where
  num_levels_ : Nat
  num_cols_ : Nat
  memory_ : List (Option Nat)
  next_id : Nat
deriving DecidableEq

/-- `ColumnPool::ColumnPool(num_vertical_levels, initial_num_columns)`
(`testing.cpp` lines 24-31): allocates every one of the initial columns, so
every `memory_` slot starts non-null. -/
def ColumnPool.construct (num_vertical_levels initial_num_columns : Nat) :
    ColumnPool :=
  { num_levels_ := num_vertical_levels
    num_cols_ := initial_num_columns
    memory_ := (List.range initial_num_columns).map (fun i => some i)
    next_id := initial_num_columns }

/-- `ColumnPool::column_view` (`testing.cpp` lines 44-63): scans for the first
slot with a null pointer (`!memory_[i]`); if none is found (`i == num_cols_`)
it doubles the pool, fills the new slots with fresh allocations
(`kokkos_realloc` of a null pointer), and returns the view over `memory_[i]`
— the first slot of the new half (the growth loop's `i` shadows the scan's
`i`). Nothing ever marks a slot used or null. Returns ((pointer, extent),
updated pool). -/
def ColumnPool.column_view (p : ColumnPool) : (Option Nat × Nat) × ColumnPool :=
  let i := p.memory_.findIdx (fun m => m.isNone)
  if i = p.num_cols_ then
    let new_num_cols := 2 * p.num_cols_
    let fresh := (List.range (new_num_cols - p.num_cols_)).map
      (fun j => some (p.next_id + j))
    let mem' := p.memory_ ++ fresh
    ((mem'.getD i none, p.num_levels_),
     { p with num_cols_ := new_num_cols, memory_ := mem',
              next_id := p.next_id + (new_num_cols - p.num_cols_) })
  else
    ((p.memory_.getD i none, p.num_levels_), p)

/-- `testing::create_column_view` (`testing.cpp` lines 85-94) together with
the `pools_` registry (line 67): finds (or creates, with 64 initial columns)
the pool for the requested vertical-level count and hands out one of its
column views. -/
def create_column_view (pools : List (Nat × ColumnPool)) (num_levels : Nat) :
    (Option Nat × Nat) × List (Nat × ColumnPool) :=
  match pools.find? (fun q => q.1 == num_levels) with
  | none =>
    let pool := ColumnPool.construct num_levels 64
    let r := pool.column_view
    (r.1, pools ++ [(num_levels, r.2)])
  | some q =>
    let r := q.2.column_view
    (r.1, pools.map (fun e => if e.1 == num_levels then (e.1, r.2) else e))

/-- A mode list with a single mode named "m0", for exercising the
mode/species association. -/
def c2_modes : List Mode :=
  [{ name := "m0", min_diameter := 1, max_diameter := 2, geom_std_dev := 3 }]

/-- A species list containing a species that happens to share the mode's name
and the species "s1" that the association table actually lists. -/
def c2_species : List Species := [{ name := "m0" }, { name := "s1" }]

/-- An association table assigning species "s1" to mode "m0". -/
def c2_table : List (String × List String) := [("m0", ["s1"])]

/-- A selection record choosing the Fortran-backed rename-subarea
implementation (all other selections at their defaults). -/
def c3_selections : SelectedProcesses :=
  { selected_processes_default with
      rename_subarea := SelectedProcesses.RenameSubarea.MAMFRenameSubarea }

/-- A concrete prognostic process (nucleation-typed) over `Nat` payloads. -/
def c4_proc : PrognosticProcess Nat Nat Nat :=
  { ptype := ProcessType.NucleationProcess
    run := fun _ _ _ _ tendencies => tendencies + 1 }

/-- A process table registering only `c4_proc` under its own type. -/
def c4_table : ProcessType → Option (Option (PrognosticProcess Nat Nat Nat)) :=
  fun ty => if ty = ProcessType.NucleationProcess then some (some c4_proc)
            else none

/-- A one-level atmosphere column with all checked quantities nonnegative. -/
def c8_atm : Atmosphere :=
  { temperature := [1], pressure := [2], vapor_mixing_ratio := [0],
    liquid_mixing_ratio := [0], cloud_liquid_number_mixing_ratio := [0],
    ice_mixing_ratio := [0], cloud_ice_number_mixing_ratio := [0],
    height := [5], hydrostatic_dp := [1], cloud_fraction := [0],
    updraft_vel_ice_nucleation := [0], planetary_boundary_layer_height := 0 }

end haero

namespace haero

namespace chem_driver

/-- A `solver_parameters` section missing exactly the `dtmin` key. -/
def c5_node : SolverParamsNode :=
  { dtmin := none, dtmax := some 1, tbeg := some 0, tend := some 1,
    num_time_iterations_per_interval := some 10, max_time_iterations := some 5,
    max_newton_iterations := some 3, atol_newton := some 1,
    rtol_newton := some 1, atol_time := some 1, tol_time := some 1,
    jacobian_interval := some 1, outputfile := some "o" }

/-- A chemistry kernel that advances each batch element's time by one second
per step (leaving step size and state alone). -/
def c1_kernel : BatchEl → BatchEl := fun e => { e with t := e.t + 1 }

/-- Solver parameters with a small outer iteration cap of 5. -/
def c1_params : SolverParams :=
  { default_solver_params with max_time_iterations := 5 }

/-- A single-batch initial condition: density, pressure, temperature zeroed. -/
def c1_init : List (List Real) := [[0, 0, 0]]

/-- A single concrete batch element. -/
def c9_el : BatchEl :=
  { t := 0, dt := 0, tadv_tbeg := 0, tadv_dt := 0, state := [] }

end chem_driver

end haero

namespace haero

namespace chem_driver

/-- Auxiliary: `List.find?` returns the unique element satisfying the
predicate when exactly one member does. -/
theorem list_find_eq_of_unique {α : Type} (p : α → Bool) :
    ∀ (l : List α) (k : α), k ∈ l → (∀ x, x ∈ l → (p x = true ↔ x = k)) →
      l.find? p = some k := by
  intro l
  induction l with
  | nil => intro k hk _; cases hk
  | cons a t ih =>
    intro k hk h
    have ha := h a (List.mem_cons_self a t)
    by_cases hak : a = k
    · subst hak
      have hpa : p a = true := ha.mpr rfl
      simp [List.find?_cons_of_pos, hpa]
    · have hpa : p a = false := by
        cases hpa' : p a with
        | true => exact absurd (ha.mp hpa') hak
        | false => rfl
      have hkt : k ∈ t := by
        rcases List.mem_cons.mp hk with h1 | h2
        · exact absurd h1.symm hak
        · exact h2
      rw [List.find?_cons_of_neg _ (by simp [hpa])]
      exact ih k hkt (fun x hx => h x (List.mem_cons_of_mem a hx))

/-- C5: with the `solver_parameters` section present but one required key `k`
missing (all other required keys present), `SolverParams::set_params` fails
fatally with a message naming `k`; with the section entirely absent, every
solver parameter takes its fixed default value. -/
theorem set_params_missing_key_and_defaults (node : SolverParamsNode)
    (k : String) (hk : k ∈ required_nodes) (hmiss : node.hasKey k = false)
    (hothers : ∀ k', k' ∈ required_nodes → k' ≠ k → node.hasKey k' = true) :
    set_params (some node)
        = Except.error ("solver_parameters contains no " ++ k ++ " entry.") ∧
    set_params none = Except.ok default_solver_params := by
  constructor
  · have hfind : required_nodes.find? (fun x => ! node.hasKey x) = some k := by
      apply list_find_eq_of_unique _ _ _ hk
      intro x hx
      constructor
      · intro hpx
        by_contra hxk
        have hkey := hothers x hx hxk
        rw [hkey] at hpx
        simp at hpx
      · intro hxk
        subst hxk
        rw [hmiss]
        rfl
    simp [set_params, hfind]
  · rfl

/-- Witness for C5: a node missing exactly `dtmin` produces the fatal message
naming `dtmin`, and the absent section produces the defaults record. -/
theorem set_params_missing_key_and_defaults_witness :
    set_params (some c5_node)
        = Except.error ("solver_parameters contains no " ++ "dtmin" ++ " entry.") ∧
    set_params none = Except.ok default_solver_params :=
  set_params_missing_key_and_defaults c5_node "dtmin" (by decide) (by decide)
    (by decide)

/-- C10: with no `tchem` section, `parse_tchem_inputs_` assigns the default
values to `nbatch_`, `verbose_`, `team_size_` and `vector_size_` but assigns
no value at all to `print_qoi_` (which gates per-step screen output in both
`time_integrate` entry points). -/
theorem parse_tchem_inputs_defaults_skip_print_qoi :
    parse_tchem_inputs none =
      Except.ok
        { nbatch_ := some defaults.nbatch
          verbose_ := some defaults.verbose
          team_size_ := some defaults.team_size
          vector_size_ := some defaults.vector_size
          print_qoi_ := none } := rfl

end chem_driver

/-- C2 (counter-evaluation): on a model with mode "m0", species "m0" and
"s1", and table `{"m0" ↦ ["s1"]}`, `aerosol_species_for_mode(0)` returns the
species named "m0" (the species list is searched with the MODE's name, line
36 of `model.cpp`), not the species "s1" the table names; the spec-intended
association returns "s1". -/
theorem aerosol_species_for_mode_uses_mode_name :
    (Model.construct c2_modes c2_species c2_table []).aerosol_species_for_mode 0
        = [some { name := "m0" }] ∧
    aerosol_species_for_mode_spec c2_modes c2_species c2_table 0
        = some [some { name := "s1" }] ∧
    ({ name := "m0" } : Species) ≠ { name := "s1" } := by
  refine ⟨?_, ?_, by decide⟩
  · rfl
  · rfl

/-- C3 (counter-evaluation): requesting the rename-subarea process with the
valid selection `MAMFRenameSubarea` hits the empty branch body of
`selected_processes.cpp` lines 78-79, leaves `process` null, and triggers the
fatal "No aerosol process was selected!" error — in both Fortran and
non-Fortran builds — instead of returning a non-null process of the requested
type. -/
theorem select_aerosol_process_mamf_rename_subarea_fatal :
    select_aerosol_process true AerosolProcessType.RenameSubareaProcess
        c3_selections = Except.error "No aerosol process was selected!" ∧
    select_aerosol_process false AerosolProcessType.RenameSubareaProcess
        c3_selections = Except.error "No aerosol process was selected!" :=
  ⟨rfl, rfl⟩

/-- C4: `Model::run_process` fails fatally (in source order) when no process
is registered for the requested type, when the registered pointer is null, or
when the resolved process's type tag differs from the request; otherwise it
delegates to the process's tendency computation, returning the prognostics
unchanged alongside the tendencies the process computed. -/
theorem run_process_spec {P D T : Type}
    (pp : ProcessType → Option (Option (PrognosticProcess P D T)))
    (type : ProcessType) (t dt : Real) (progs : P) (diags : D) (tends : T) :
    (pp type = none →
      run_process pp type t dt progs diags tends
          = Except.error "No process of the selected type is available!") ∧
    (pp type = some none →
      run_process pp type t dt progs diags tends
          = Except.error "Null process pointer encountered!") ∧
    (∀ proc, pp type = some (some proc) → proc.ptype ≠ type →
      run_process pp type t dt progs diags tends
          = Except.error "Invalid process type encountered!") ∧
    (∀ proc, pp type = some (some proc) → proc.ptype = type →
      run_process pp type t dt progs diags tends
          = Except.ok (progs, proc.run t dt progs diags tends)) := by
  refine ⟨fun h => ?_, fun h => ?_, fun proc h hne => ?_, fun proc h he => ?_⟩
  · simp [run_process, h]
  · simp [run_process, h]
  · simp [run_process, h, hne]
  · simp [run_process, h, he]

/-- Witness for C4: a lookup miss errors fatally, and a registered,
type-matching process is delegated to with the prognostics untouched. -/
theorem run_process_spec_witness :
    run_process c4_table ProcessType.ActivationProcess 0 0 7 8 9
        = Except.error "No process of the selected type is available!" ∧
    run_process c4_table ProcessType.NucleationProcess 0 0 7 8 9
        = Except.ok (7, c4_proc.run 0 0 7 8 9) :=
  ⟨(run_process_spec c4_table ProcessType.ActivationProcess 0 0 7 8 9).1 rfl,
   (run_process_spec c4_table ProcessType.NucleationProcess 0 0 7 8 9).2.2.2
     c4_proc rfl rfl⟩

/-- C7 (counter-evaluation): starting from no pools, the first
`create_column_view(10)` call builds a 64-column pool yet immediately doubles
it to 128 (returning fresh buffer 64), and the second call doubles it again
to 256 (returning fresh buffer 128) even though only one of its 128 columns
had ever been handed out: the "unused column" scan tests slots for null, but
every slot is allocated non-null and nothing ever marks a slot, so the pool
grows on every request, not exactly on exhaustion. The two buffers handed out
are nevertheless distinct (non-aliased). -/
theorem column_pool_doubles_on_every_request :
    (create_column_view [] 10).1.1 = some 64 ∧
    (create_column_view (create_column_view [] 10).2 10).1.1 = some 128 ∧
    ((create_column_view [] 10).2.find? (fun q => q.1 == 10)).map
        (fun q => q.2.num_cols_) = some 128 ∧
    ((create_column_view (create_column_view [] 10).2 10).2.find?
        (fun q => q.1 == 10)).map (fun q => q.2.num_cols_) = some 256 ∧
    (create_column_view [] 10).1.1
        ≠ (create_column_view (create_column_view [] 10).2 10).1.1 := by
  refine ⟨by decide, by decide, by decide, by decide, by decide⟩

end haero

namespace haero

/-- C8: `Atmosphere::quantities_nonnegative` returns true exactly when every
level's temperature, pressure and all five mixing ratios are nonnegative —
equivalently, it returns false as soon as any single checked entry is
negative. The check is the column-wide violation-count reduction and reads
the column without mutating it. -/
theorem quantities_nonnegative_iff (a : Atmosphere) :
    a.quantities_nonnegative = true ↔
      ∀ k, k < a.num_levels →
        (0 ≤ a.temperature.getD k 0 ∧ 0 ≤ a.pressure.getD k 0 ∧
         0 ≤ a.vapor_mixing_ratio.getD k 0 ∧
         0 ≤ a.liquid_mixing_ratio.getD k 0 ∧
         0 ≤ a.ice_mixing_ratio.getD k 0 ∧
         0 ≤ a.cloud_liquid_number_mixing_ratio.getD k 0 ∧
         0 ≤ a.cloud_ice_number_mixing_ratio.getD k 0) := by
  simp only [Atmosphere.quantities_nonnegative, beq_iff_eq,
             List.countP_eq_zero, List.mem_range, Atmosphere.violation_at,
             Bool.or_eq_true, decide_eq_true_eq, not_or, not_lt]
  constructor
  · intro h k hk
    have hk' := h k hk
    tauto
  · intro h k hk
    have hk' := h k hk
    tauto

/-- Witness for C8: an all-nonnegative one-level column passes the check. -/
theorem quantities_nonnegative_iff_witness :
    c8_atm.quantities_nonnegative = true :=
  (quantities_nonnegative_iff c8_atm).mpr (by decide)

end haero

namespace haero

namespace chem_driver

/-- C9: one batched step (the abstracted per-element chemistry kernel
followed by the carry-over writes of `chem_driver.cpp` lines 256-264) is
element-independent: the element at each batch index of the result is a
function of that index's pre-step element alone, and consequently running the
step on a permuted batch yields the correspondingly permuted result, for
every batch of size at least 1. -/
theorem batch_step_independent_and_perm (kernel : BatchEl → BatchEl)
    (els els' : List BatchEl) (hN : 1 ≤ els.length) (hperm : els.Perm els') :
    (∀ i : Nat, (batch_step kernel els).get? i
        = (els.get? i).map (fun e => carry_over (kernel e))) ∧
    (batch_step kernel els).Perm (batch_step kernel els') := by
  constructor
  · intro i
    simp only [batch_step, List.get?_eq_getElem?, List.getElem?_map]
    cases els[i]? <;> rfl
  · exact (hperm.map kernel).map carry_over

/-- Witness for C9: the batched step over a singleton batch, compared against
itself under the identity permutation. -/
theorem batch_step_independent_and_perm_witness :
    (∀ i : Nat, (batch_step id [c9_el]).get? i
        = (([c9_el] : List BatchEl).get? i).map (fun e => carry_over (id e))) ∧
    (batch_step id [c9_el]).Perm (batch_step id [c9_el]) :=
  batch_step_independent_and_perm id [c9_el] [c9_el] (by decide)
    (List.Perm.refl _)

/-- Auxiliary: each executed iteration of the stepping loop appends exactly
one `write_state` record per batch element, and the batch size never
changes. -/
theorem time_loop_lengths (kernel : BatchEl → BatchEl) (tend tsum : Real) :
    ∀ (fuel iter : Nat) (els : List BatchEl),
      (time_loop kernel tend tsum fuel iter els).2.2.length
          = (time_loop kernel tend tsum fuel iter els).1 * els.length ∧
      (time_loop kernel tend tsum fuel iter els).2.1.length = els.length := by
  intro fuel
  induction fuel with
  | zero => intro iter els; simp [time_loop]
  | succ n ih =>
    intro iter els
    by_cases h : tsum ≤ tend * (9999 / 10000)
    · have hrec := ih (iter + 1) ((els.map kernel).map carry_over)
      simp only [List.length_map] at hrec
      simp only [time_loop, h, if_true, write_state, List.length_append,
                 List.length_map]
      rw [hrec.1, hrec.2]
      exact ⟨by ring, rfl⟩
    · simp [time_loop, h]

/-- C6: for a single-batch run, the output of `time_integrate(tbeg, tend)`
contains exactly `iterations_run + 2` lines — the header, the initial
condition, and one line per executed outer iteration — and the first data
line is the initial condition carrying sentinel iteration index `-1`, the
begin time, and the configured minimum step size. -/
theorem time_integrate_single_batch_output (kernel : BatchEl → BatchEl)
    (sp : SolverParams) (tbeg tend : Real) (st : List Real) :
    (time_integrate kernel sp tbeg tend [st]).2.2.length
        = (time_integrate kernel sp tbeg tend [st]).1 + 2 ∧
    (time_integrate kernel sp tbeg tend [st]).2.2.get? 1
        = some (OutLine.state
            { iter := -1, t := tbeg, dt := sp.tadv_default._dtmin,
              state := st }) := by
  have hl := time_loop_lengths kernel tend 0 sp.max_time_iterations.toNat 0
      ([st].map (fun s =>
        { t := tbeg, dt := sp.tadv_default._dtmin, tadv_tbeg := tbeg,
          tadv_dt := sp.tadv_default._dt, state := s }))
  constructor
  · simp only [List.map_cons, List.map_nil, List.length_cons, List.length_nil,
               Nat.zero_add, Nat.mul_one] at hl
    simp only [time_integrate, write_state, List.map_cons, List.map_nil,
               List.length_cons, List.length_append, List.length_map,
               List.length_nil]
    omega
  · simp [time_integrate, write_state]

/-- Witness for C6: the single-batch output-shape facts at a concrete run. -/
theorem time_integrate_single_batch_output_witness :
    (time_integrate id default_solver_params 0 1 [[5]]).2.2.length
        = (time_integrate id default_solver_params 0 1 [[5]]).1 + 2 ∧
    (time_integrate id default_solver_params 0 1 [[5]]).2.2.get? 1
        = some (OutLine.state
            { iter := -1, t := 0, dt := default_solver_params.tadv_default._dtmin,
              state := [5] }) :=
  time_integrate_single_batch_output id default_solver_params 0 1 [5]

/-- C1 (counter-evaluation): with `t_begin = 0`, `t_end = 1`,
`max_time_iterations = 5` and a kernel that advances each element's time by 1
per step, the run executes all 5 iterations — the cap — even though every
batch element's time exceeds `0.9999 × t_end` from the first step on: the
loop body's `Real tsum = 0;` shadows the loop-condition variable, which
therefore never leaves 0, so the early exit never fires. -/
theorem time_integrate_runs_to_cap_despite_time_reached :
    (time_integrate c1_kernel c1_params 0 1 c1_init).1
        = c1_params.max_time_iterations.toNat ∧
    ∀ e ∈ (time_integrate c1_kernel c1_params 0 1 c1_init).2.1,
      (9999 / 10000 : Real) * 1 ≤ e.t := by
  constructor
  · norm_num [time_integrate, time_loop, c1_kernel, c1_params, c1_init,
              default_solver_params, write_state, carry_over, inner_tsum]
    decide
  · norm_num [time_integrate, time_loop, c1_kernel, c1_params, c1_init,
              default_solver_params, write_state, carry_over, inner_tsum]

end chem_driver

end haero
